import Mathlib

/-!
Verification of the task-server HTTP backend (src/index.js).

The server keeps three collections (users, groups, tasks) in a document
store and exposes route handlers.  We embed each collection as a list of
records, a handler as a pure function from the database (plus its request
arguments) to a response/database pair, and the "populate" step of the
mongoose layer as an explicit projection on the response records.
External primitives (bcrypt hashing/comparison, fresh ObjectId generation,
the wall clock) enter as parameters of the handlers that use them.
-/

namespace TaskServer

/-- A stored user document (collection `User`).  `password` holds the hash. -/
structure User where
  id : Nat
  username : String
  email : String
  password : String
  role : Int
  deriving DecidableEq, Repr

/-- A stored group document (collection `Group`). -/
structure Group where
  id : Nat
  name : String
  createdBy : Nat
  members : List Nat
  deriving DecidableEq, Repr

/-- A stored task document (collection `Task`).  Dates are integer timestamps. -/
structure Task where
  id : Nat
  name : String
  description : String
  dueDate : Int
  category : String
  status : String
  group : Option Nat
  assignedTo : Option Nat
  createdBy : Nat
  lastUpdated : Int
  deriving DecidableEq, Repr

/-- The whole document store. -/
structure DB where
  users : List User
  groups : List Group
  tasks : List Task
  deriving DecidableEq, Repr

/-- A JSON scalar as it arrives in a request body; `role !== 1` in the
    source is strict (type-sensitive) inequality, so we keep the tag. -/
inductive JVal where
  | num (n : Int)
  | str (s : String)
  | bool (b : Bool)
  | null
  deriving DecidableEq, Repr

/-- An HTTP JSON response envelope: status code, `success` flag, optional
    `message`, and the endpoint-specific payload (`none` when the payload
    field is absent or `null`). -/
structure Resp (β : Type) where
  status : Nat
  success : Bool
  message : Option String
  body : Option β
  deriving DecidableEq, Repr

/-- A reference field in a response document: either the raw stored id
    (no populate) or the projected display name of the referenced record
    (`Ref.proj none` when the id resolved to nothing). -/
inductive Ref where
  | raw : Nat → Ref
  | proj : Option String → Ref
  deriving DecidableEq, Repr

/-- `User.findById`: first user whose id matches. -/
def findById (db : DB) (uid : Nat) : Option User :=
  db.users.find? (fun u => u.id == uid)

/-- `User.findOne({username})`: first user with the exact username. -/
def findByUsername (db : DB) (username : String) : Option User :=
  db.users.find? (fun u => u.username == username)

/-- `Group.findById`: first group whose id matches. -/
def findGroupById (db : DB) (gid : Nat) : Option Group :=
  db.groups.find? (fun g => g.id == gid)

/-- Request body of POST /register; the handler destructures only
    `username`, `email` and `password`, so any `role` field rides along
    unused. -/
structure RegisterBody where
  username : String
  email : String
  password : String
  role : Option JVal
  deriving DecidableEq, Repr

/-- POST /register (src/index.js lines 67-97): reject a taken username,
    then a taken email, else store the user with the bcrypt hash and the
    hardcoded role 2.  `hash` abstracts `bcrypt.hash(password, 10)` and
    `newId` the generated ObjectId. -/
def registerHandler (hash : String → String) (newId : Nat) (db : DB)
    (b : RegisterBody) : Resp Unit × DB :=
  if db.users.any (fun u => u.username == b.username) then
    ({ status := 400, success := false,
       message := some "El nombre de usuario ya está en uso", body := none }, db)
  else if db.users.any (fun u => u.email == b.email) then
    ({ status := 400, success := false,
       message := some "El correo electrónico ya está en uso", body := none }, db)
  else
    ({ status := 200, success := true,
       message := some "Usuario registrado exitosamente", body := none },
     { db with users := db.users ++
        [{ id := newId, username := b.username, email := b.email,
           password := hash b.password, role := 2 }] })

/-- POST /auth/login (lines 99-118): unknown username fails with status 400
    and the not-found message; a hash mismatch fails with status 400 and the
    wrong-password message; success returns the full stored record.
    `check` abstracts `bcrypt.compare`. -/
def loginHandler (check : String → String → Bool) (db : DB)
    (username password : String) : Resp User × DB :=
  match findByUsername db username with
  | none =>
      ({ status := 400, success := false,
         message := some "Usuario no encontrado", body := none }, db)
  | some u =>
      if check password u.password then
        ({ status := 200, success := true,
           message := some "Inicio de sesión exitoso", body := some u }, db)
      else
        ({ status := 400, success := false,
           message := some "Contraseña incorrecta", body := none }, db)

/-- A user record as returned with the password field excluded
    (`select: '-password'`). -/
structure UserOut where
  id : Nat
  username : String
  email : String
  role : Int
  deriving DecidableEq, Repr

/-- Drop the password field from a user record. -/
def stripPassword (u : User) : UserOut :=
  { id := u.id, username := u.username, email := u.email, role := u.role }

/-- PUT /users/:userId/role (lines 131-155): `role !== 1 && role !== 2`
    rejects with 400 before any storage call; then `findByIdAndUpdate`
    stores the role, 404 when the id resolves to no user. -/
def roleUpdateHandler (db : DB) (uid : Nat) (role : JVal) : Resp UserOut × DB :=
  if role = JVal.num 1 ∨ role = JVal.num 2 then
    match findById db uid with
    | none =>
        ({ status := 404, success := false,
           message := some "Usuario no encontrado", body := none }, db)
    | some u =>
        let n : Int := match role with | JVal.num n => n | _ => u.role
        let u' : User := { u with role := n }
        ({ status := 200, success := true,
           message := some "Rol de usuario actualizado exitosamente",
           body := some (stripPassword u') },
         { db with users :=
            db.users.map (fun v => if v.id == uid then { v with role := n } else v) })
  else
    ({ status := 400, success := false,
       message := some "Rol inválido. Solo se permiten roles 1 (Admin) o 2 (Usuario)",
       body := none }, db)

/-- Look up a user id and project it to its username
    (`populate(..., 'username')`). -/
def projUser (db : DB) (uid : Nat) : Ref :=
  Ref.proj ((findById db uid).map (fun u => u.username))

/-- Look up a group id and project it to its name (`populate('group', 'name')`). -/
def projGroup (db : DB) (gid : Nat) : Ref :=
  Ref.proj ((findGroupById db gid).map (fun g => g.name))

/-- A group document as serialized in a response; reference fields may be
    raw ids or populated projections depending on the endpoint. -/
structure GroupOut where
  id : Nat
  name : String
  createdBy : Ref
  members : List Ref
  deriving DecidableEq, Repr

/-- A group serialized with no populate step (`.lean()` only): reference
    fields stay raw ids. -/
def rawGroupOut (g : Group) : GroupOut :=
  { id := g.id, name := g.name, createdBy := Ref.raw g.createdBy,
    members := g.members.map Ref.raw }

/-- A group serialized after `populate('createdBy members', 'username')`:
    each user reference becomes a username projection. -/
def populateGroupOut (db : DB) (g : Group) : GroupOut :=
  { id := g.id, name := g.name, createdBy := projUser db g.createdBy,
    members := g.members.map (projUser db) }

/-- A task document as serialized in a response after the populate steps. -/
structure TaskOut where
  id : Nat
  name : String
  description : String
  dueDate : Int
  category : String
  status : String
  group : Option Ref
  assignedTo : Option Ref
  createdBy : Ref
  lastUpdated : Int
  deriving DecidableEq, Repr

/-- A task serialized after `populate('group','name')`,
    `populate('assignedTo','username')`, `populate('createdBy','username')`. -/
def populateTaskOut (db : DB) (t : Task) : TaskOut :=
  { id := t.id, name := t.name, description := t.description,
    dueDate := t.dueDate, category := t.category, status := t.status,
    group := t.group.map (projGroup db),
    assignedTo := t.assignedTo.map (projUser db),
    createdBy := projUser db t.createdBy,
    lastUpdated := t.lastUpdated }

/-- GET /groups (lines 177-188): all groups with creator and members
    populated to usernames. -/
def groupsHandler (db : DB) : Resp (List GroupOut) × DB :=
  ({ status := 200, success := true, message := none,
     body := some (db.groups.map (populateGroupOut db)) }, db)

/-- GET /groups/:groupId (lines 223-241): one group populated, 404 if the
    id resolves to no group. -/
def groupGetHandler (db : DB) (gid : Nat) : Resp GroupOut × DB :=
  match findGroupById db gid with
  | none =>
      ({ status := 404, success := false,
         message := some "Grupo no encontrado", body := none }, db)
  | some g =>
      ({ status := 200, success := true, message := none,
         body := some (populateGroupOut db g) }, db)

/-- `Group.find({members: userId})`: the groups listing the user as member. -/
def memberGroups (db : DB) (uid : Nat) : List Group :=
  db.groups.filter (fun g => g.members.contains uid)

/-- GET /groups/:groupId/tasks (lines 191-206): the tasks whose group field
    equals the given id, populated; never a not-found failure. -/
def groupTasksHandler (db : DB) (gid : Nat) : Resp (List TaskOut) × DB :=
  ({ status := 200, success := true, message := none,
     body := some ((db.tasks.filter (fun t => t.group == some gid)).map
       (populateTaskOut db)) }, db)

/-- GET /admin/tasks (lines 208-221): every task, populated; no role check. -/
def adminTasksHandler (db : DB) : Resp (List TaskOut) × DB :=
  ({ status := 200, success := true, message := none,
     body := some (db.tasks.map (populateTaskOut db)) }, db)

/-- GET /users/:userId/tasks (lines 267-304): 404 when the user id is
    unknown; an admin (role 1) gets every task; otherwise only tasks whose
    group id is among the ids of the user's groups (`$in` on the group
    field), all populated. -/
def userTasksHandler (db : DB) (uid : Nat) : Resp (List TaskOut) × DB :=
  match findById db uid with
  | none =>
      ({ status := 404, success := false,
         message := some "Usuario no encontrado", body := none }, db)
  | some u =>
      let ts :=
        if u.role = 1 then db.tasks
        else
          let groupIds := (memberGroups db uid).map (fun g => g.id)
          db.tasks.filter (fun t =>
            match t.group with
            | some g => groupIds.contains g
            | none => false)
      ({ status := 200, success := true, message := none,
         body := some (ts.map (populateTaskOut db)) }, db)

/-- GET /users/:userId/groups (lines 306-332): 404 when the user id is
    unknown; an admin gets all groups, a non-admin the groups listing them
    as member — in both branches plain `.lean()` documents with NO populate
    step, so reference fields stay raw ids. -/
def userGroupsHandler (db : DB) (uid : Nat) : Resp (List GroupOut) × DB :=
  match findById db uid with
  | none =>
      ({ status := 404, success := false,
         message := some "Usuario no encontrado", body := none }, db)
  | some u =>
      let gs := if u.role = 1 then db.groups else memberGroups db uid
      ({ status := 200, success := true, message := none,
         body := some (gs.map rawGroupOut) }, db)

/-- A partial task update body: `none` marks a field absent from the JSON
    body, present fields carry the new value (`group`/`assignedTo` may be
    set to `null`, hence the nested option). -/
structure TaskPatch where
  name : Option String
  description : Option String
  dueDate : Option Int
  category : Option String
  status : Option String
  group : Option (Option Nat)
  assignedTo : Option (Option Nat)
  createdBy : Option Nat
  lastUpdated : Option Int
  deriving DecidableEq, Repr

/-- `findByIdAndUpdate(id, taskData)`: set each supplied field, keep the
    rest. -/
def applyPatch (t : Task) (p : TaskPatch) : Task :=
  { id := t.id,
    name := p.name.getD t.name,
    description := p.description.getD t.description,
    dueDate := p.dueDate.getD t.dueDate,
    category := p.category.getD t.category,
    status := p.status.getD t.status,
    group := p.group.getD t.group,
    assignedTo := p.assignedTo.getD t.assignedTo,
    createdBy := p.createdBy.getD t.createdBy,
    lastUpdated := p.lastUpdated.getD t.lastUpdated }

/-- `Task.findById`: first task whose id matches. -/
def findTaskById (db : DB) (tid : Nat) : Option Task :=
  db.tasks.find? (fun t => t.id == tid)

/-- PUT /tasks/:taskId (lines 334-348): overwrite `taskData.lastUpdated`
    with the clock (`now`), then `findByIdAndUpdate` with `{new:true}`.
    A missing id yields `updatedTask = null` but still a success envelope. -/
def taskUpdateHandler (now : Int) (db : DB) (tid : Nat) (p : TaskPatch) :
    Resp Task × DB :=
  let p' := { p with lastUpdated := some now }
  match findTaskById db tid with
  | none =>
      ({ status := 200, success := true,
         message := some "Tarea actualizada", body := none }, db)
  | some t =>
      ({ status := 200, success := true,
         message := some "Tarea actualizada", body := some (applyPatch t p') },
       { db with tasks :=
          db.tasks.map (fun x => if x.id == tid then applyPatch x p' else x) })

/-- DELETE /tasks/:taskId (lines 350-360): `findByIdAndDelete` then an
    unconditional success envelope; no existence check. -/
def taskDeleteHandler (db : DB) (tid : Nat) : Resp Unit × DB :=
  ({ status := 200, success := true,
     message := some "Tarea eliminada", body := none },
   { db with tasks := db.tasks.filter (fun t => !(t.id == tid)) })

/-! Theorems about the handlers, one per specification claim. -/

/-- An empty document store, used as a concrete instantiation point. -/
def dbEmpty : DB := ⟨[], [], []⟩

/-- C4: every registration stores role 2 (Member): the handler's result does
    not depend on a caller-supplied role field, and the only record it can
    add carries role 2. -/
theorem register_role_always_member (hash : String → String) (newId : Nat)
    (db : DB) (b : RegisterBody) :
    registerHandler hash newId db b =
      registerHandler hash newId db { b with role := none } ∧
    ((registerHandler hash newId db b).2.users = db.users ∨
     (registerHandler hash newId db b).2.users = db.users ++
       [{ id := newId, username := b.username, email := b.email,
          password := hash b.password, role := 2 }]) := by
  constructor
  · rfl
  · unfold registerHandler
    split
    · simp
    · split <;> simp

/-- C9: DELETE /tasks/:taskId always answers with the success envelope; the
    matching task (if any) is removed, a second delete of the same id is a
    no-op that still succeeds, and nothing with that id survives. -/
theorem delete_task_unconditional (db : DB) (tid : Nat) :
    (taskDeleteHandler db tid).1.status = 200 ∧
    (taskDeleteHandler db tid).1.success = true ∧
    (taskDeleteHandler db tid).2.tasks =
      db.tasks.filter (fun t => !(t.id == tid)) ∧
    findTaskById (taskDeleteHandler db tid).2 tid = none ∧
    (taskDeleteHandler (taskDeleteHandler db tid).2 tid).1.success = true ∧
    (taskDeleteHandler (taskDeleteHandler db tid).2 tid).2 =
      (taskDeleteHandler db tid).2 := by
  refine ⟨rfl, rfl, rfl, ?_, rfl, ?_⟩
  · simp [taskDeleteHandler, findTaskById, List.find?_eq_none]
  · simp [taskDeleteHandler, List.filter_filter]

/-- C6: PUT /users/:userId/role with a role value other than the numbers 1
    and 2 fails with status 400 and leaves the store untouched, whatever the
    target id. -/
theorem role_update_invalid_rejected (db : DB) (uid : Nat) (role : JVal)
    (h1 : role ≠ JVal.num 1) (h2 : role ≠ JVal.num 2) :
    (roleUpdateHandler db uid role).1.status = 400 ∧
    (roleUpdateHandler db uid role).1.success = false ∧
    (roleUpdateHandler db uid role).2 = db := by
  unfold roleUpdateHandler
  rw [if_neg (by rintro (h | h) <;> [exact h1 h; exact h2 h])]
  exact ⟨rfl, rfl, rfl⟩

/-- C6 witness: a concrete invalid role (the number 5) on an empty store. -/
theorem role_update_invalid_rejected_witness :
    (roleUpdateHandler dbEmpty 0 (JVal.num 5)).1.status = 400 ∧
    (roleUpdateHandler dbEmpty 0 (JVal.num 5)).1.success = false ∧
    (roleUpdateHandler dbEmpty 0 (JVal.num 5)).2 = dbEmpty :=
  role_update_invalid_rejected dbEmpty 0 (JVal.num 5) (by decide) (by decide)

/-- C10: the role guard is strict on types: the JSON strings "1" and "2"
    (indeed any string) are rejected with the invalid-role 400 and no state
    change, while a numeric role reaches storage exactly when it is 1 or 2. -/
theorem role_update_strict_equality (db : DB) (uid : Nat) (s : String) :
    ((roleUpdateHandler db uid (JVal.str s)).1.status = 400 ∧
     (roleUpdateHandler db uid (JVal.str s)).1.message =
       some "Rol inválido. Solo se permiten roles 1 (Admin) o 2 (Usuario)" ∧
     (roleUpdateHandler db uid (JVal.str s)).2 = db) ∧
    (∀ n : Int, (roleUpdateHandler db uid (JVal.num n)).1.status = 400 ↔
      (n ≠ 1 ∧ n ≠ 2)) := by
  constructor
  · unfold roleUpdateHandler
    rw [if_neg (by rintro (h | h) <;> cases h)]
    exact ⟨rfl, rfl, rfl⟩
  · intro n
    by_cases h : JVal.num n = JVal.num 1 ∨ JVal.num n = JVal.num 2
    · unfold roleUpdateHandler
      rw [if_pos h]
      rcases h with h | h <;> cases h <;>
        cases hf : findById db uid <;> simp [hf]
    · unfold roleUpdateHandler
      rw [if_neg h]
      simp only [not_or] at h
      simp only [JVal.num.injEq] at h
      simpa using h

/-- C10 witness: the string "1" is rejected on an empty store while the
    number 1 is not rejected as invalid. -/
theorem role_update_strict_equality_witness :
    ((roleUpdateHandler dbEmpty 0 (JVal.str "1")).1.status = 400 ∧
     (roleUpdateHandler dbEmpty 0 (JVal.str "1")).1.message =
       some "Rol inválido. Solo se permiten roles 1 (Admin) o 2 (Usuario)" ∧
     (roleUpdateHandler dbEmpty 0 (JVal.str "1")).2 = dbEmpty) ∧
    ¬ (roleUpdateHandler dbEmpty 0 (JVal.num 1)).1.status = 400 := by
  have h := role_update_strict_equality dbEmpty 0 "1"
  exact ⟨h.1, fun hc => (((h.2 1).mp hc).1 rfl)⟩

/-- C2 counterexample: login with a username matching no stored user fails
    with the not-found message at HTTP status 400, not 404, so the claim
    that every unresolved-identifier failure is a 404 is false. -/
theorem login_notfound_status_counterexample :
    (loginHandler (fun _ _ => true) dbEmpty "ana" "p").1.message =
      some "Usuario no encontrado" ∧
    (loginHandler (fun _ _ => true) dbEmpty "ana" "p").1.success = false ∧
    (loginHandler (fun _ _ => true) dbEmpty "ana" "p").1.status = 400 ∧
    ¬ (loginHandler (fun _ _ => true) dbEmpty "ana" "p").1.status = 404 := by
  refine ⟨rfl, rfl, rfl, by decide⟩

/-- C2 amended: the id-based lookups (role update, user task/group listing,
    single-group retrieval) fail not-found with status 404, but login with an
    unknown username fails with the not-found message at status 400. -/
theorem notfound_statuses (db : DB) (uid gid : Nat) (un pw : String)
    (check : String → String → Bool) :
    (findById db uid = none →
      (roleUpdateHandler db uid (JVal.num 1)).1.status = 404 ∧
      (userTasksHandler db uid).1.status = 404 ∧
      (userGroupsHandler db uid).1.status = 404) ∧
    (findGroupById db gid = none → (groupGetHandler db gid).1.status = 404) ∧
    (findByUsername db un = none →
      (loginHandler check db un pw).1.status = 400 ∧
      (loginHandler check db un pw).1.message = some "Usuario no encontrado") := by
  refine ⟨fun h => ?_, fun h => ?_, fun h => ?_⟩
  · exact ⟨by simp [roleUpdateHandler, h],
      by simp [userTasksHandler, h], by simp [userGroupsHandler, h]⟩
  · simp [groupGetHandler, h]
  · simp [loginHandler, h]

/-- C2 amended witness: concrete unknown identifiers on the empty store. -/
theorem notfound_statuses_witness :
    (roleUpdateHandler dbEmpty 0 (JVal.num 1)).1.status = 404 ∧
    (userTasksHandler dbEmpty 0).1.status = 404 ∧
    (userGroupsHandler dbEmpty 0).1.status = 404 ∧
    (groupGetHandler dbEmpty 0).1.status = 404 ∧
    (loginHandler (fun _ _ => false) dbEmpty "ana" "p").1.status = 400 := by
  have h := notfound_statuses dbEmpty 0 0 "ana" "p" (fun _ _ => false)
  have h1 := h.1 rfl
  exact ⟨h1.1, h1.2.1, h1.2.2, h.2.1 rfl, (h.2.2 rfl).1⟩

/-- C7: registration checks the username precondition first: a taken
    username yields the 400 conflict whose message names the username,
    regardless of the email field; a fresh username/email pair succeeds and
    an identical repeat hits that same username conflict. -/
theorem register_username_check_first (hash : String → String)
    (newId newId2 : Nat) (db : DB) (b : RegisterBody) :
    (db.users.any (fun u => u.username == b.username) = true →
      (registerHandler hash newId db b).1.status = 400 ∧
      (registerHandler hash newId db b).1.success = false ∧
      (registerHandler hash newId db b).1.message =
        some "El nombre de usuario ya está en uso" ∧
      (registerHandler hash newId db b).2 = db) ∧
    (∃ pre post, "El nombre de usuario ya está en uso" =
      pre ++ "nombre de usuario" ++ post) ∧
    (db.users.any (fun u => u.username == b.username) = false →
      db.users.any (fun u => u.email == b.email) = false →
      (registerHandler hash newId db b).1.success = true ∧
      (registerHandler hash newId2 (registerHandler hash newId db b).2 b).1.success
        = false ∧
      (registerHandler hash newId2 (registerHandler hash newId db b).2 b).1.message
        = some "El nombre de usuario ya está en uso") := by
  refine ⟨fun h => ?_, ⟨"El ", " ya está en uso", rfl⟩, fun h1 h2 => ?_⟩
  · unfold registerHandler
    rw [if_pos h]
    exact ⟨rfl, rfl, rfl, rfl⟩
  · have hfst : registerHandler hash newId db b =
        ({ status := 200, success := true,
           message := some "Usuario registrado exitosamente", body := none },
         { db with users := db.users ++
            [{ id := newId, username := b.username, email := b.email,
               password := hash b.password, role := 2 }] }) := by
      unfold registerHandler
      rw [if_neg (by simp [h1]), if_neg (by simp [h2])]
    refine ⟨by rw [hfst], ?_, ?_⟩ <;>
      · rw [hfst]
        unfold registerHandler
        rw [if_pos (by simp)]

/-- C7 witness: the concrete scenario — registering ana at the empty store
    succeeds and a character-identical repeat fails with the username
    conflict message. -/
theorem register_username_check_first_witness :
    (registerHandler (fun s => s ++ "#") 1 dbEmpty
      ⟨"ana", "a@x.com", "p1", none⟩).1.success = true ∧
    (registerHandler (fun s => s ++ "#") 2
      (registerHandler (fun s => s ++ "#") 1 dbEmpty
        ⟨"ana", "a@x.com", "p1", none⟩).2
      ⟨"ana", "a@x.com", "p1", none⟩).1.success = false ∧
    (registerHandler (fun s => s ++ "#") 2
      (registerHandler (fun s => s ++ "#") 1 dbEmpty
        ⟨"ana", "a@x.com", "p1", none⟩).2
      ⟨"ana", "a@x.com", "p1", none⟩).1.message =
        some "El nombre de usuario ya está en uso" := by
  have h := register_username_check_first (fun s => s ++ "#") 1 2 dbEmpty
    ⟨"ana", "a@x.com", "p1", none⟩
  exact h.2.2 rfl rfl

/-- C8: a successful login returns the full stored record, password hash
    included, and a wrong password on an existing username yields the
    credential-mismatch message, which differs from the not-found message. -/
theorem login_returns_full_record (check : String → String → Bool) (db : DB)
    (un pw : String) (u : User) (hu : findByUsername db un = some u) :
    (check pw u.password = true →
      (loginHandler check db un pw).1.success = true ∧
      (loginHandler check db un pw).1.status = 200 ∧
      (loginHandler check db un pw).1.body = some u ∧
      ((loginHandler check db un pw).1.body.map (fun v => v.password)) =
        some u.password) ∧
    (check pw u.password = false →
      (loginHandler check db un pw).1.success = false ∧
      (loginHandler check db un pw).1.status = 400 ∧
      (loginHandler check db un pw).1.message = some "Contraseña incorrecta") ∧
    (some "Contraseña incorrecta" : Option String) ≠
      some "Usuario no encontrado" := by
  refine ⟨fun h => ?_, fun h => ?_, by decide⟩
  · simp [loginHandler, hu, h]
  · simp [loginHandler, hu, h]

/-- C8 witness: a store holding ana with hash "p1#"; the matching password
    succeeds and returns the record with its hash, the wrong one fails with
    the mismatch message. -/
theorem login_returns_full_record_witness :
    ((loginHandler (fun p h => (p ++ "#") == h)
        ⟨[⟨1, "ana", "a@x.com", "p1#", 2⟩], [], []⟩ "ana" "p1").1.body.map
      (fun v => v.password)) = some "p1#" ∧
    (loginHandler (fun p h => (p ++ "#") == h)
        ⟨[⟨1, "ana", "a@x.com", "p1#", 2⟩], [], []⟩ "ana" "p2").1.message =
      some "Contraseña incorrecta" := by
  have h := login_returns_full_record (fun p h => (p ++ "#") == h)
    ⟨[⟨1, "ana", "a@x.com", "p1#", 2⟩], [], []⟩ "ana" "p1" ⟨1, "ana", "a@x.com", "p1#", 2⟩
    (by decide)
  have h' := login_returns_full_record (fun p h => (p ++ "#") == h)
    ⟨[⟨1, "ana", "a@x.com", "p1#", 2⟩], [], []⟩ "ana" "p2" ⟨1, "ana", "a@x.com", "p1#", 2⟩
    (by decide)
  exact ⟨(h.1 (by decide)).2.2.2, (h'.2.1 (by decide)).2.2⟩

/-- C5: updating an existing task with a partial body leaves every
    unsupplied field at its prior value, while `lastUpdated` becomes the
    clock value `now` whatever the caller put in the body; when the clock
    has not gone backwards the new timestamp is ≥ the previous one. -/
theorem task_update_frame (now : Int) (db : DB) (tid : Nat) (p : TaskPatch)
    (t : Task) (ht : findTaskById db tid = some t) :
    ∃ t', (taskUpdateHandler now db tid p).1.body = some t' ∧
      (taskUpdateHandler now db tid p).1.success = true ∧
      (p.name = none → t'.name = t.name) ∧
      (p.description = none → t'.description = t.description) ∧
      (p.dueDate = none → t'.dueDate = t.dueDate) ∧
      (p.category = none → t'.category = t.category) ∧
      (p.group = none → t'.group = t.group) ∧
      (p.assignedTo = none → t'.assignedTo = t.assignedTo) ∧
      (p.createdBy = none → t'.createdBy = t.createdBy) ∧
      t'.lastUpdated = now ∧
      (t.lastUpdated ≤ now → t.lastUpdated ≤ t'.lastUpdated) := by
  refine ⟨applyPatch t { p with lastUpdated := some now },
    by simp [taskUpdateHandler, ht], by simp [taskUpdateHandler, ht],
    ?_, ?_, ?_, ?_, ?_, ?_, ?_, rfl, ?_⟩ <;>
    intro h <;> simp [applyPatch, h]

/-- C5 witness: a body carrying only a status (plus a stale caller-supplied
    lastUpdated) leaves name, description and due date intact and stamps the
    clock value 10 ≥ the stored 5. -/
theorem task_update_frame_witness :
    ∃ t', (taskUpdateHandler 10
        ⟨[], [], [⟨7, "n", "d", 3, "c", "open", none, none, 1, 5⟩]⟩ 7
        ⟨none, none, none, none, some "done", none, none, none, some 999⟩).1.body
        = some t' ∧
      t'.name = "n" ∧ t'.description = "d" ∧ t'.dueDate = 3 ∧
      t'.status = "done" ∧ t'.lastUpdated = 10 ∧ (5 : Int) ≤ t'.lastUpdated := by
  obtain ⟨t', hbody, _, hn, hd, hdd, _, _, _, _, hlu, hmono⟩ :=
    task_update_frame 10 ⟨[], [], [⟨7, "n", "d", 3, "c", "open", none, none, 1, 5⟩]⟩ 7
      ⟨none, none, none, none, some "done", none, none, none, some 999⟩
      ⟨7, "n", "d", 3, "c", "open", none, none, 1, 5⟩ (by decide)
  refine ⟨t', hbody, hn rfl, hd rfl, hdd rfl, ?_, hlu, hmono (by decide)⟩
  have : t' = applyPatch ⟨7, "n", "d", 3, "c", "open", none, none, 1, 5⟩
      ⟨none, none, none, none, some "done", none, none, none, some 10⟩ := by
    have hb : (taskUpdateHandler 10
        ⟨[], [], [⟨7, "n", "d", 3, "c", "open", none, none, 1, 5⟩]⟩ 7
        ⟨none, none, none, none, some "done", none, none, none, some 999⟩).1.body
        = some (applyPatch ⟨7, "n", "d", 3, "c", "open", none, none, 1, 5⟩
          ⟨none, none, none, none, some "done", none, none, none, some 10⟩) := by
      simp [taskUpdateHandler, findTaskById]
    rw [hb] at hbody
    exact (Option.some.injEq _ _ ▸ hbody).symm
  rw [this]
  rfl

/-- Specification-side visibility predicate for a Member: a task is visible
    exactly when it has a group and some stored group with that id lists the
    user among its members. -/
def taskVisibleToMember (db : DB) (uid : Nat) (t : Task) : Bool :=
  match t.group with
  | some g => db.groups.any (fun G => G.id == g && G.members.contains uid)
  | none => false

/-- Membership in the id list of the user's groups coincides with the
    existence of a group with that id listing the user as member. -/
theorem filtered_groupIds_contains (l : List Group) (uid g : Nat) :
    ((l.filter (fun G => G.members.contains uid)).map (fun G => G.id)).contains g
      = l.any (fun G => G.id == g && G.members.contains uid) := by
  induction l with
  | nil => rfl
  | cons G l ih =>
    by_cases h : G.members.contains uid
    · simp only [List.filter_cons, h, if_pos, List.map_cons, List.contains_cons,
        List.any_cons, ih, Bool.and_true]
      by_cases he : g = G.id
      · subst he; rfl
      · have h1 : (g == G.id) = false := by simp [he]
        have h2 : (G.id == g) = false := by simp [Ne.symm he]
        rw [h1, h2]
    · simp only [List.filter_cons, h, Bool.false_eq_true, if_neg, ih,
        List.any_cons, Bool.and_false, Bool.false_or, if_false]

/-- C1: GET /users/:userId/tasks — an unknown user id fails 404; an Admin
    (role 1) receives every stored task, populated; a Member (role 2)
    receives exactly the tasks whose group is one of the groups listing the
    user as a member (tasks outside those groups, or with no group, are
    excluded). -/
theorem user_tasks_auth_filter (db : DB) (uid : Nat) :
    (findById db uid = none →
      (userTasksHandler db uid).1.status = 404 ∧
      (userTasksHandler db uid).1.success = false) ∧
    (∀ u, findById db uid = some u →
      (u.role = 1 →
        (userTasksHandler db uid).1.body =
          some (db.tasks.map (populateTaskOut db))) ∧
      (u.role = 2 →
        (userTasksHandler db uid).1.body =
          some ((db.tasks.filter (taskVisibleToMember db uid)).map
            (populateTaskOut db)))) := by
  refine ⟨fun h => ?_, fun u hu => ⟨fun hr => ?_, fun hr => ?_⟩⟩
  · simp [userTasksHandler, h]
  · simp [userTasksHandler, hu, hr]
  · have hne : ¬ u.role = 1 := by rw [hr]; decide
    simp only [userTasksHandler, hu]
    rw [if_neg hne]
    simp only [Option.some.injEq]
    congr 1
    refine List.filter_congr (fun t _ => ?_)
    cases hg : t.group with
    | none => simp [taskVisibleToMember, hg]
    | some g =>
        simp only [taskVisibleToMember, hg]
        exact filtered_groupIds_contains db.groups uid g

/-- A concrete scenario store: an admin, a member ana belonging to groups
    G1 and G2 but not G3, and one task in G1, one in G3, one with no group. -/
def dbScen : DB :=
  ⟨[⟨1, "root", "r@x.com", "h", 1⟩, ⟨2, "ana", "a@x.com", "h", 2⟩],
   [⟨10, "G1", 1, [2]⟩, ⟨11, "G2", 1, [2]⟩, ⟨12, "G3", 1, []⟩],
   [⟨100, "t1", "d", 0, "c", "open", some 10, none, 1, 0⟩,
    ⟨101, "t2", "d", 0, "c", "open", some 12, none, 1, 0⟩,
    ⟨102, "t3", "d", 0, "c", "open", none, none, 1, 0⟩]⟩

/-- C1 witness: in the scenario store, the member sees exactly the visible
    tasks and the admin sees all of them. -/
theorem user_tasks_auth_filter_witness :
    (userTasksHandler dbScen 2).1.body =
      some ((dbScen.tasks.filter (taskVisibleToMember dbScen 2)).map
        (populateTaskOut dbScen)) ∧
    (userTasksHandler dbScen 1).1.body =
      some (dbScen.tasks.map (populateTaskOut dbScen)) :=
  ⟨((user_tasks_auth_filter dbScen 2).2 ⟨2, "ana", "a@x.com", "h", 2⟩
      (by decide)).2 rfl,
   ((user_tasks_auth_filter dbScen 1).2 ⟨1, "root", "r@x.com", "h", 1⟩
      (by decide)).1 rfl⟩

/-- A one-user one-group store for the populate counterexample. -/
def dbC3 : DB := ⟨[⟨1, "ana", "a@x.com", "h", 2⟩], [⟨10, "G", 1, [1]⟩], []⟩

/-- C3 counterexample: GET /users/:userId/groups does not resolve the
    createdBy/members references to username projections — on a store with
    member ana (id 1) in group G, the handler's body differs from the
    populated view the claim demands. -/
theorem user_groups_not_populated_counterexample :
    ¬ ((userGroupsHandler dbC3 1).1.body =
        some ((memberGroups dbC3 1).map (populateGroupOut dbC3))) := by
  decide

/-- C3 amended: every listing or single-record retrieval endpoint resolves
    referenced User/Group ids to display-name projections and mutates
    nothing — GET /groups, GET /groups/:groupId, GET /groups/:groupId/tasks,
    GET /admin/tasks and GET /users/:userId/tasks all serialize through the
    populate projections — with the single exception of GET
    /users/:userId/groups, which returns the stored group records with
    createdBy and members left as raw ids (no populate step), also mutating
    nothing. -/
theorem group_listing_populate (db : DB) (uid gid : Nat) :
    (groupsHandler db).1.body = some (db.groups.map (populateGroupOut db)) ∧
    (groupsHandler db).2 = db ∧
    (groupGetHandler db gid).2 = db ∧
    (∀ g, findGroupById db gid = some g →
      (groupGetHandler db gid).1.body = some (populateGroupOut db g)) ∧
    (groupTasksHandler db gid).1.body =
      some ((db.tasks.filter (fun t => t.group == some gid)).map
        (populateTaskOut db)) ∧
    (groupTasksHandler db gid).2 = db ∧
    (adminTasksHandler db).1.body = some (db.tasks.map (populateTaskOut db)) ∧
    (adminTasksHandler db).2 = db ∧
    (userTasksHandler db uid).2 = db ∧
    (∀ u, findById db uid = some u → ∃ ts : List Task,
      (userTasksHandler db uid).1.body = some (ts.map (populateTaskOut db))) ∧
    (userGroupsHandler db uid).2 = db ∧
    (∀ u, findById db uid = some u →
      (u.role = 1 →
        (userGroupsHandler db uid).1.body = some (db.groups.map rawGroupOut)) ∧
      (¬ u.role = 1 →
        (userGroupsHandler db uid).1.body =
          some ((memberGroups db uid).map rawGroupOut))) := by
  refine ⟨rfl, rfl, ?_, fun g hg => ?_, rfl, rfl, rfl, rfl, ?_, fun u hu => ?_,
    ?_, fun u hu => ⟨fun hr => ?_, fun hr => ?_⟩⟩
  · cases hg : findGroupById db gid <;> simp [groupGetHandler, hg]
  · simp [groupGetHandler, hg]
  · cases hu : findById db uid <;> simp [userTasksHandler, hu]
  · refine ⟨if u.role = 1 then db.tasks
      else db.tasks.filter (fun t =>
        match t.group with
        | some g => ((memberGroups db uid).map (fun G => G.id)).contains g
        | none => false), ?_⟩
    simp only [userTasksHandler, hu]
  · cases hu : findById db uid <;> simp [userGroupsHandler, hu]
  · simp [userGroupsHandler, hu, hr]
  · simp only [userGroupsHandler, hu]
    rw [if_neg hr]

/-- C3 amended witness: on the one-user one-group store, GET /groups, GET
    /groups/:groupId and GET /users/:userId/tasks serialize through the
    populate projections while GET /users/1/groups keeps raw ids; the store
    is unchanged. -/
theorem group_listing_populate_witness :
    (groupsHandler dbC3).1.body = some (dbC3.groups.map (populateGroupOut dbC3)) ∧
    (groupGetHandler dbC3 10).1.body =
      some (populateGroupOut dbC3 ⟨10, "G", 1, [1]⟩) ∧
    (∃ ts : List Task,
      (userTasksHandler dbC3 1).1.body = some (ts.map (populateTaskOut dbC3))) ∧
    (userGroupsHandler dbC3 1).1.body =
      some ((memberGroups dbC3 1).map rawGroupOut) ∧
    (userGroupsHandler dbC3 1).2 = dbC3 := by
  have h := group_listing_populate dbC3 1 10
  exact ⟨h.1, h.2.2.2.1 ⟨10, "G", 1, [1]⟩ (by decide),
    h.2.2.2.2.2.2.2.2.2.1 ⟨1, "ana", "a@x.com", "h", 2⟩ (by decide),
    h.2.2.2.2.2.2.2.2.2.2.2 ⟨1, "ana", "a@x.com", "h", 2⟩ (by decide) |>.2
      (by decide),
    h.2.2.2.2.2.2.2.2.2.2.1⟩

end TaskServer
